import Mathlib

/-!
Shallow embedding of the weather-telemetry backend (src/app/models.py,
src/app/routers/webhook.py) and proofs about it.

Modelling conventions:
* Python floats are modelled as exact rationals (ℚ); no claim under study
  depends on binary floating-point rounding.
* Timestamps (datetime) are modelled as integers (seconds); `utcnow()` is an
  explicit parameter `now`, and a trailing window of `hours` hours is the
  predicate `now - hours * 3600 ≤ station_time`.
* The SQL table is a list of rows plus an autoincrement counter; SQL NULL is
  `Option.none`; a SELECT with a WHERE clause is `List.filter`, ORDER BY is a
  sort, OFFSET/LIMIT are `List.drop`/`List.take`, and `.first()` takes the
  first row of the filtered list.
* Raising `HTTPException(status, detail)` is returning `HttpResult.httpError
  status detail`.
-/

namespace WeatherApp

/-- Row of the weather_station_data table (class WeatherStationData,
src/app/models.py lines 9-39).  The server-maintained created_at/updated_at
timestamp columns are omitted: no operation under study reads them. -/
structure WeatherStationData where
  id : ℕ
  station_time : ℤ
  source : String
  temperature : Option ℚ := none
  precipitation : Option ℚ := none
  real_precipitation : Option ℚ := none
  presure : Option ℚ := none
  wind_speed : Option ℚ := none
  wind_direction : Option ℚ := none
  humidity : Option ℚ := none
  radiation : Option ℚ := none
  eto : Option ℚ := none
  compass_rose : Option String := none
  real_eto : Option ℚ := none
  radiation_uv : Option ℚ := none
  processed : ℕ := 0
deriving DecidableEq, Repr

/-- Database state: the stored rows plus the autoincrement counter that will
number the next inserted row. -/
structure Store where
  rows : List WeatherStationData
  nextId : ℕ
deriving DecidableEq, Repr

/-- Pydantic model DataReceived (src/app/models.py lines 42-60): the payload
after successful validation.  stationTime and source are the only required
fields; every measurement field is Optional with default None. -/
structure DataReceived where
  stationTime : ℤ
  temperature : Option ℚ := none
  precipitation : Option ℚ := none
  realPrecipitation : Option ℚ := none
  presure : Option ℚ := none
  windSpeed : Option ℚ := none
  windDirection : Option ℚ := none
  humidity : Option ℚ := none
  radiation : Option ℚ := none
  eto : Option ℚ := none
  compassRose : Option String := none
  realETO : Option ℚ := none
  radiationUV : Option ℚ := none
  source : String
deriving DecidableEq, Repr

/-- Incoming JSON body before validation: every field of DataReceived may be
present or absent. -/
structure RawPayload where
  stationTime : Option ℤ := none
  temperature : Option ℚ := none
  precipitation : Option ℚ := none
  realPrecipitation : Option ℚ := none
  presure : Option ℚ := none
  windSpeed : Option ℚ := none
  windDirection : Option ℚ := none
  humidity : Option ℚ := none
  radiation : Option ℚ := none
  eto : Option ℚ := none
  compassRose : Option String := none
  realETO : Option ℚ := none
  radiationUV : Option ℚ := none
  source : Option String := none
deriving DecidableEq, Repr

/-- Pydantic validation of a request body against DataReceived
(src/app/models.py lines 42-60).  The model declares `stationTime : datetime`
and `source : str` with no default and no further constraint (no min_length on
source, no range constraint on any measurement), so validation fails exactly
when a required field is absent; every other field defaults to None. -/
def DataReceived.model_validate (p : RawPayload) : Except String DataReceived :=
  match p.stationTime with
  | none => .error "Field required: stationTime"
  | some t =>
    match p.source with
    | none => .error "Field required: source"
    | some s =>
      .ok { stationTime := t, temperature := p.temperature,
            precipitation := p.precipitation,
            realPrecipitation := p.realPrecipitation, presure := p.presure,
            windSpeed := p.windSpeed, windDirection := p.windDirection,
            humidity := p.humidity, radiation := p.radiation, eto := p.eto,
            compassRose := p.compassRose, realETO := p.realETO,
            radiationUV := p.radiationUV, source := s }

/-- Response model DataResponse (src/app/models.py lines 83-90). -/
structure DataResponse where
  success : Bool
  message : String
  id : Option ℕ := none
deriving DecidableEq, Repr

/-- Result of a request handler: a value, or a raised
HTTPException(status, detail). -/
inductive HttpResult (α : Type) where
  | ok (value : α)
  | httpError (status : ℕ) (detail : String)
deriving DecidableEq, Repr

/-- Attribute access data.activeSensor (src/app/routers/webhook.py line 42).
DataReceived (src/app/models.py lines 42-60) declares no field named
activeSensor (nor solarPanel, openDoor, lowBattery, observations), so in
Python this access raises AttributeError; it is the first of the five missing
attributes evaluated in the WeatherStationData(...) keyword list. -/
def DataReceived.activeSensor (_ : DataReceived) : Except String ℚ :=
  .error "DataReceived object has no attribute activeSensor"

/-- Handler receive_weather_data (src/app/routers/webhook.py lines 20-66).
The try block builds WeatherStationData(station_time=..., ...,
active_sensor=data.activeSensor, ...); evaluating data.activeSensor raises
AttributeError before db.add is reached, the except branch rolls the session
back (nothing was pending) and raises HTTP 500 with the error text appended
to the detail.  The ok branch below is the insert-and-commit path the code
would take if the attribute existed; it is never reached. -/
def receive_weather_data (db : Store) (data : DataReceived) :
    Store × HttpResult DataResponse :=
  match data.activeSensor with
  | .ok _ =>
      let db_data : WeatherStationData :=
        { id := db.nextId, station_time := data.stationTime,
          source := data.source, temperature := data.temperature,
          precipitation := data.precipitation,
          real_precipitation := data.realPrecipitation,
          presure := data.presure, wind_speed := data.windSpeed,
          wind_direction := data.windDirection, humidity := data.humidity,
          radiation := data.radiation, eto := data.eto,
          compass_rose := data.compassRose, real_eto := data.realETO,
          radiation_uv := data.radiationUV, processed := 0 }
      ({ rows := db.rows ++ [db_data], nextId := db.nextId + 1 },
       .ok { success := true,
             message := "Datos meteorologicos recibidos y guardados correctamente",
             id := some db_data.id })
  | .error e =>
      (db, .httpError 500 ("Error al guardar datos: " ++ e))

/-- Query db.query(WeatherStationData).filter(WeatherStationData.id ==
data_id).first(): first stored row whose id matches, None when there is
none. -/
def queryFirstById : List WeatherStationData → ℕ → Option WeatherStationData
  | [], _ => none
  | d :: ds, i => if d.id = i then some d else queryFirstById ds i

/-- Handler get_weather_data_by_id (src/app/routers/webhook.py lines
107-119): point lookup, 404 when the id is absent. -/
def get_weather_data_by_id (db : Store) (data_id : ℕ) :
    HttpResult WeatherStationData :=
  match queryFirstById db.rows data_id with
  | none => .httpError 404 ("No se encontraron datos con ID " ++ toString data_id)
  | some d => .ok d

/-- Python truthiness test `if source:` on an Optional[str] query parameter:
None and the empty string are falsy. -/
def filterSource (rows : List WeatherStationData) :
    Option String → List WeatherStationData
  | some s => if s = "" then rows else rows.filter fun d => decide (d.source = s)
  | none => rows

/-- Filter station_time >= start_date when the parameter was supplied
(a datetime value is always truthy in Python). -/
def filterStart (rows : List WeatherStationData) :
    Option ℤ → List WeatherStationData
  | some t => rows.filter fun d => decide (t ≤ d.station_time)
  | none => rows

/-- Filter station_time <= end_date when the parameter was supplied. -/
def filterEnd (rows : List WeatherStationData) :
    Option ℤ → List WeatherStationData
  | some t => rows.filter fun d => decide (d.station_time ≤ t)
  | none => rows

/-- Conjunctive filter chain of get_all_weather_data
(src/app/routers/webhook.py lines 86-95). -/
def listQueryRows (db : Store) (source : Option String)
    (start_date end_date : Option ℤ) : List WeatherStationData :=
  filterEnd (filterStart (filterSource db.rows source) start_date) end_date

/-- Ordering relation of ORDER BY station_time DESC: a precedes b when the
station_time of a is at least that of b. -/
def timeDesc (a b : WeatherStationData) : Prop :=
  b.station_time ≤ a.station_time

instance : DecidableRel timeDesc := fun a b =>
  inferInstanceAs (Decidable (b.station_time ≤ a.station_time))

instance : IsTotal WeatherStationData timeDesc :=
  ⟨fun a b => le_total b.station_time a.station_time⟩

instance : IsTrans WeatherStationData timeDesc :=
  ⟨fun _ _ _ h1 h2 => le_trans h2 h1⟩

/-- Ordering relation of ORDER BY station_time ASC. -/
def timeAsc (a b : WeatherStationData) : Prop :=
  a.station_time ≤ b.station_time

instance : DecidableRel timeAsc := fun a b =>
  inferInstanceAs (Decidable (a.station_time ≤ b.station_time))

instance : IsTotal WeatherStationData timeAsc :=
  ⟨fun a b => le_total a.station_time b.station_time⟩

instance : IsTrans WeatherStationData timeAsc :=
  ⟨fun _ _ _ h1 h2 => le_trans h1 h2⟩

/-- Handler get_all_weather_data (src/app/routers/webhook.py lines 69-104):
apply the supplied filters, order by station_time descending, then
offset(skip).limit(limit). -/
def get_all_weather_data (db : Store) (skip limit : ℕ)
    (source : Option String) (start_date end_date : Option ℤ) :
    List WeatherStationData :=
  (((listQueryRows db source start_date end_date).insertionSort
      timeDesc).drop skip).take limit

/-- Distinct source values present in the store, in first-occurrence order
(the GROUP BY key set of the latest-per-source subquery,
src/app/routers/webhook.py lines 155-161). -/
def distinctSources (rows : List WeatherStationData) : List String :=
  (rows.map (·.source)).dedup

/-- Ids of the rows of one source group. -/
def sourceGroupIds (rows : List WeatherStationData) (s : String) : List ℕ :=
  (rows.filter fun d => decide (d.source = s)).map (·.id)

/-- func.max(WeatherStationData.id) over one source group. -/
def maxIdForSource (rows : List WeatherStationData) (s : String) : ℕ :=
  (sourceGroupIds rows s).foldl Nat.max 0

/-- Handler get_latest_from_all_sources (src/app/routers/webhook.py lines
148-169): subquery of (source, max(id)) pairs grouped by source, then the
rows whose id joins against some max_id of the subquery. -/
def get_latest_from_all_sources (db : Store) : List WeatherStationData :=
  let subquery := (distinctSources db.rows).map
    fun s => (s, maxIdForSource db.rows s)
  db.rows.filter fun d => subquery.any fun p => d.id == p.2

/-- WHERE source = source_name AND station_time >= utcnow() - hours: the
windowed per-source row set shared by the statistics and rain-probability
handlers (src/app/routers/webhook.py lines 195-198 and 250-253). -/
def sourceWindow (db : Store) (source_name : String) (now : ℤ) (hours : ℕ) :
    List WeatherStationData :=
  db.rows.filter fun d =>
    decide (d.source = source_name ∧ now - (hours : ℤ) * 3600 ≤ d.station_time)

/-- SQL AVG over a nullable column: NULL values are excluded from both the
sum and the denominator; NULL when no value is present. -/
def sqlAvg (xs : List (Option ℚ)) : Option ℚ :=
  let vs := xs.filterMap id
  if vs.isEmpty then none else some (vs.sum / vs.length)

/-- SQL MAX over a nullable column. -/
def sqlMax (xs : List (Option ℚ)) : Option ℚ :=
  (xs.filterMap id).foldl (fun acc v => match acc with
    | none => some v
    | some m => some (max m v)) none

/-- SQL MIN over a nullable column. -/
def sqlMin (xs : List (Option ℚ)) : Option ℚ :=
  (xs.filterMap id).foldl (fun acc v => match acc with
    | none => some v
    | some m => some (min m v)) none

/-- Python round(x, 2).  Python rounds halves to even while Mathlib's round
rounds halves up; no claim under study evaluates round at a half-way
point, so the models agree on every input that matters here. -/
def round2 (q : ℚ) : ℚ := ((round (q * 100) : ℤ) : ℚ) / 100

/-- Rendering `round(x, 2) if x else None` (src/app/routers/webhook.py lines
213-226): the Python truthiness test is false both for None and for the
float 0.0. -/
def roundIfTruthy (x : Option ℚ) : Option ℚ :=
  match x with
  | none => none
  | some q => if q = 0 then none else some (round2 q)

/-- Statistics block of the JSON returned by get_statistics_by_source. -/
structure StatisticsOut where
  temperature_average : Option ℚ
  temperature_maximum : Option ℚ
  temperature_minimum : Option ℚ
  humidity_average : Option ℚ
  wind_speed_average : Option ℚ
  wind_speed_maximum : Option ℚ
  total_records : ℕ
deriving DecidableEq, Repr

/-- Handler get_statistics_by_source (src/app/routers/webhook.py lines
172-230): aggregate the windowed per-source rows; 404 when the window holds
no row (the aggregate query always returns one row, so the guard
`not stats or stats.total_records == 0` reduces to the count being zero);
otherwise render each aggregate through the `if stats.x` truthiness test. -/
def get_statistics_by_source (db : Store) (source_name : String) (now : ℤ)
    (hours : ℕ) : HttpResult StatisticsOut :=
  let rows := sourceWindow db source_name now hours
  if rows.length = 0 then
    .httpError 404 ("No hay datos suficientes para " ++ source_name ++
      " en las ultimas " ++ toString hours ++ " horas")
  else
    .ok { temperature_average := roundIfTruthy (sqlAvg (rows.map (·.temperature))),
          temperature_maximum := roundIfTruthy (sqlMax (rows.map (·.temperature))),
          temperature_minimum := roundIfTruthy (sqlMin (rows.map (·.temperature))),
          humidity_average := roundIfTruthy (sqlAvg (rows.map (·.humidity))),
          wind_speed_average := roundIfTruthy (sqlAvg (rows.map (·.wind_speed))),
          wind_speed_maximum := roundIfTruthy (sqlMax (rows.map (·.wind_speed))),
          total_records := rows.length }

/-- Windowed per-source rows ordered by station_time ascending
(src/app/routers/webhook.py lines 248-256). -/
def recentDataAsc (db : Store) (source_name : String) (now : ℤ) (hours : ℕ) :
    List WeatherStationData :=
  (sourceWindow db source_name now hours).insertionSort timeAsc

/-- Average of the non-absent humidity values, 0 when none is present
(src/app/routers/webhook.py lines 267-268). -/
def avgHumidity (w : List WeatherStationData) : ℚ :=
  let humidities := w.filterMap (·.humidity)
  if humidities.isEmpty then 0 else humidities.sum / humidities.length

/-- Humidity rule of the rain score (src/app/routers/webhook.py lines
270-273): average humidity above 90 adds 30, else above 75 adds 15. -/
def humidityRuleScore (w : List WeatherStationData) : ℤ :=
  if 90 < avgHumidity w then 30 else if 75 < avgHumidity w then 15 else 0

/-- Pressure rule of the rain score (src/app/routers/webhook.py lines
264-282): pressure_change starts at 0.0 and becomes last minus first only
when both endpoint rows hold a pressure value; a drop beyond 1.5 adds 35,
beyond 0.5 adds 15.  Returns (pressure_change, score contribution). -/
def pressureChangeAndScore (w : List WeatherStationData) : ℚ × ℤ :=
  match (w.head?).bind (·.presure), (w.getLast?).bind (·.presure) with
  | some f, some l =>
      let change := l - f
      (change, if change < -1.5 then 35 else if change < -0.5 then 15 else 0)
  | _, _ => ((0 : ℚ), 0)

/-- Score contribution of the pressure rule alone. -/
def pressureRuleScore (w : List WeatherStationData) : ℤ :=
  (pressureChangeAndScore w).2

/-- Sum of the non-absent real_precipitation values
(src/app/routers/webhook.py lines 284-286). -/
def totalPrecipitation (w : List WeatherStationData) : ℚ :=
  (w.filterMap (·.real_precipitation)).sum

/-- Precipitation rule of the rain score (src/app/routers/webhook.py lines
287-288): a window total above 0.1 adds 25. -/
def precipitationRuleScore (w : List WeatherStationData) : ℤ :=
  if 0.1 < totalPrecipitation w then 25 else 0

/-- JSON returned by get_rain_probability (probability plus the rounded
debug diagnostics). -/
structure RainReport where
  rain_probability : ℤ
  records_analyzed : ℕ
  average_humidity : ℚ
  pressure_change : ℚ
  total_precipitation : ℚ
deriving DecidableEq, Repr

/-- Handler get_rain_probability (src/app/routers/webhook.py lines 233-302):
fetch the ascending-ordered window, require at least two rows, add the three
rule contributions in program order and clamp the total at 100. -/
def get_rain_probability (db : Store) (source_name : String) (now : ℤ)
    (hours : ℕ) : HttpResult RainReport :=
  let recent := recentDataAsc db source_name now hours
  if recent.length < 2 then
    .httpError 404 ("No hay suficientes datos para " ++ source_name ++
      " en las ultimas " ++ toString hours ++
      " horas para hacer una prediccion.")
  else
    let probability := humidityRuleScore recent + pressureRuleScore recent +
      precipitationRuleScore recent
    let final_probability := min probability 100
    .ok { rain_probability := final_probability,
          records_analyzed := recent.length,
          average_humidity := round2 (avgHumidity recent),
          pressure_change := round2 (pressureChangeAndScore recent).1,
          total_precipitation := round2 (totalPrecipitation recent) }

/-- Mutation of the first row whose id matches: set processed to 1, leave
every other field and every other row unchanged. -/
def setProcessedFirst : List WeatherStationData → ℕ → List WeatherStationData
  | [], _ => []
  | d :: ds, i =>
      if d.id = i then { d with processed := 1 } :: ds
      else d :: setProcessedFirst ds i

/-- Handler mark_as_processed (src/app/routers/webhook.py lines 305-318):
look the row up by id (404 when absent), set processed = 1, commit, and
acknowledge with the echoed id. -/
def mark_as_processed (db : Store) (data_id : ℕ) :
    Store × HttpResult DataResponse :=
  match queryFirstById db.rows data_id with
  | none => (db, .httpError 404 "Dato no encontrado")
  | some _ =>
      ({ db with rows := setProcessedFirst db.rows data_id },
       .ok { success := true, message := "Dato marcado como procesado",
             id := some data_id })

/-! Concrete rows and stores used by the worked examples, witnesses and
counterexamples below. -/

/-- First reading of the worked rain example: humidity 95, pressure 1010,
real precipitation 0.1, station_time 10. -/
def rainRow1 : WeatherStationData :=
  { id := 1, station_time := 10, source := "estacion", humidity := some 95,
    presure := some 1010, real_precipitation := some 0.1 }

/-- Second reading of the worked rain example: humidity 95, pressure 1008,
real precipitation 0.1, station_time 20. -/
def rainRow2 : WeatherStationData :=
  { id := 2, station_time := 20, source := "estacion", humidity := some 95,
    presure := some 1008, real_precipitation := some 0.1 }

/-- Store holding exactly the two readings of the worked rain example. -/
def rainExampleStore : Store := { rows := [rainRow1, rainRow2], nextId := 3 }

/-- Expected response of the worked rain example: 30 (humidity) + 35
(pressure drop of 2.0) + 25 (precipitation 0.2) = 90. -/
def rainExampleReport : RainReport :=
  { rain_probability := 90, records_analyzed := 2, average_humidity := 95,
    pressure_change := -2, total_precipitation := 0.2 }

lemma rainExample_eval :
    get_rain_probability rainExampleStore "estacion" 1000 6 =
      .ok rainExampleReport := by
  norm_num [get_rain_probability, recentDataAsc, sourceWindow,
    rainExampleStore, rainRow1, rainRow2, rainExampleReport, List.filter,
    List.insertionSort, List.orderedInsert, timeAsc, humidityRuleScore,
    pressureRuleScore, precipitationRuleScore, avgHumidity,
    pressureChangeAndScore, totalPrecipitation, round2, List.filterMap,
    round_eq]

/-- Store holding one reading whose temperature is exactly 0.0. -/
def tempZeroStore : Store :=
  { rows := [{ id := 1, station_time := 0, source := "estacion",
               temperature := some 0 }],
    nextId := 2 }

/-- Payload used to exercise the ingest handler. -/
def ingestAttemptPayload : DataReceived :=
  { stationTime := 0, source := "sensor_001" }

/-- Unvalidated payload whose source is present but empty, with an absurdly
large measurement value. -/
def emptySourcePayload : RawPayload :=
  { stationTime := some 0, source := some "", temperature := some 999999 }

/-- Row with a non-empty source, the more recent station_time. -/
def mixedRowX : WeatherStationData :=
  { id := 1, station_time := 5, source := "x" }

/-- Row stored with the empty string as its source value. -/
def mixedRowEmpty : WeatherStationData :=
  { id := 2, station_time := 3, source := "" }

/-- Store mixing a non-empty-source row and an empty-source row. -/
def mixedSourceStore : Store :=
  { rows := [mixedRowX, mixedRowEmpty], nextId := 3 }

/-! Claim theorems. -/

/-- C1: the claim fails on the code.  The try block of receive_weather_data
evaluates data.activeSensor (src/app/routers/webhook.py line 42), an
attribute the DataReceived model does not declare, so every ingest request —
whatever validated payload it carries — raises AttributeError, is rolled
back, and answers HTTP 500.  The handler never returns success with a new
id, nothing is ever stored, and the claimed getById round-trip is
unattainable. -/
theorem receive_weather_data_always_500 (db : Store) (data : DataReceived) :
    (receive_weather_data db data).1 = db ∧
    (receive_weather_data db data).2 = .httpError 500
      "Error al guardar datos: DataReceived object has no attribute activeSensor" :=
  ⟨rfl, rfl⟩

/-- C2: the claim fails on the code.  With a single in-window reading whose
temperature is 0.0, the SQL aggregates are present (average, maximum and
minimum all 0.0) yet the endpoint reports them as null, because it renders
each aggregate as `round(x, 2) if x else None` and the Python float 0.0 is
falsy.  An aggregate is therefore not null if-and-only-if no non-absent
value exists in the window. -/
theorem statistics_zero_aggregate_rendered_null :
    (sourceWindow tempZeroStore "estacion" 0 24).map (·.temperature) =
      [some 0] ∧
    sqlAvg ((sourceWindow tempZeroStore "estacion" 0 24).map (·.temperature)) =
      some 0 ∧
    get_statistics_by_source tempZeroStore "estacion" 0 24 =
      .ok { temperature_average := none, temperature_maximum := none,
            temperature_minimum := none, humidity_average := none,
            wind_speed_average := none, wind_speed_maximum := none,
            total_records := 1 } := by
  refine ⟨?_, ?_, ?_⟩ <;>
    norm_num [get_statistics_by_source, sourceWindow, tempZeroStore,
      List.filter, sqlAvg, sqlMax, sqlMin, roundIfTruthy, List.filterMap,
      round2]

/-- C3 counterexample: the claim states that a payload whose source is the
empty string is rejected with a ValidationError, but validation of such a
payload succeeds — pydantic only checks that the required fields are
present, and also accepts an arbitrary numeric measurement value. -/
theorem model_validate_accepts_empty_source :
    DataReceived.model_validate emptySourcePayload =
      .ok { stationTime := 0, source := "", temperature := some 999999 } :=
  rfl

/-- C3 (amended): validation succeeds exactly when stationTime and source
are present; required-field absence is the only structural validation, so
the empty-string source and every numeric measurement value are accepted. -/
theorem model_validate_presence_iff (p : RawPayload) :
    (∃ d, DataReceived.model_validate p = .ok d) ↔
      (p.stationTime.isSome ∧ p.source.isSome) := by
  rcases hst : p.stationTime with _ | t <;>
    rcases hsrc : p.source with _ | s <;>
      simp [DataReceived.model_validate, hst, hsrc]

/-- C8: whenever ingestion reports a failure, the store is returned
unchanged — no record, not even a partial one, is added — and the failure is
an HTTP 500 carrying the descriptive detail string built in the except
branch after db.rollback(). -/
theorem ingest_failure_rollback (db : Store) (data : DataReceived)
    (status : ℕ) (detail : String)
    (h : (receive_weather_data db data).2 = .httpError status detail) :
    (receive_weather_data db data).1 = db ∧ status = 500 ∧
    detail =
      "Error al guardar datos: DataReceived object has no attribute activeSensor" := by
  refine ⟨rfl, ?_⟩
  have h2 : HttpResult.httpError (α := DataResponse) 500
      "Error al guardar datos: DataReceived object has no attribute activeSensor" =
      .httpError status detail := h
  injection h2 with hs hd
  exact ⟨hs.symm, hd.symm⟩

/-- C8 witness: a concrete failing ingest on the empty store leaves the
store unchanged. -/
theorem ingest_failure_rollback_witness :
    (receive_weather_data { rows := [], nextId := 1 } ingestAttemptPayload).2 =
      .httpError 500
        "Error al guardar datos: DataReceived object has no attribute activeSensor" ∧
    (receive_weather_data { rows := [], nextId := 1 } ingestAttemptPayload).1 =
      { rows := [], nextId := 1 } :=
  ⟨rfl,
   (ingest_failure_rollback { rows := [], nextId := 1 } ingestAttemptPayload
      500 _ rfl).1⟩

/-- C10: supplying the empty string as the source query parameter is the
same as supplying no source filter at all — Python `if source:` is false for
the empty string — so the result may contain readings of every source, and a
reading stored with an empty source value can never be selected by the
filter; concretely, filtering the mixed store by the empty source returns
both its rows. -/
theorem list_empty_source_param_ignored :
    (∀ (db : Store) (skip limit : ℕ) (sd ed : Option ℤ),
        get_all_weather_data db skip limit (some "") sd ed =
          get_all_weather_data db skip limit none sd ed) ∧
    get_all_weather_data mixedSourceStore 0 100 (some "") none none =
      [mixedRowX, mixedRowEmpty] := by
  constructor
  · intro db skip limit sd ed
    simp [get_all_weather_data, listQueryRows, filterSource]
  · decide

/-! Lemmas about the list-query filter chain. -/

lemma mem_filterSource {rows : List WeatherStationData} {src : Option String}
    {r : WeatherStationData} (h : r ∈ filterSource rows src) :
    r ∈ rows ∧ ∀ s, src = some s → s ≠ "" → r.source = s := by
  rcases src with _ | s
  · exact ⟨h, by simp⟩
  · by_cases hs : s = ""
    · subst hs
      simp only [filterSource, if_pos rfl] at h
      exact ⟨h, fun s2 hs2 hne => by cases hs2; exact absurd rfl hne⟩
    · simp only [filterSource, if_neg hs, List.mem_filter,
        decide_eq_true_eq] at h
      exact ⟨h.1, fun s2 hs2 _ => by cases hs2; exact h.2⟩

lemma mem_filterStart {rows : List WeatherStationData} {sd : Option ℤ}
    {r : WeatherStationData} (h : r ∈ filterStart rows sd) :
    r ∈ rows ∧ ∀ t, sd = some t → t ≤ r.station_time := by
  rcases sd with _ | t
  · exact ⟨h, by simp⟩
  · simp only [filterStart, List.mem_filter, decide_eq_true_eq] at h
    exact ⟨h.1, fun t2 ht2 => by cases ht2; exact h.2⟩

lemma mem_filterEnd {rows : List WeatherStationData} {ed : Option ℤ}
    {r : WeatherStationData} (h : r ∈ filterEnd rows ed) :
    r ∈ rows ∧ ∀ t, ed = some t → r.station_time ≤ t := by
  rcases ed with _ | t
  · exact ⟨h, by simp⟩
  · simp only [filterEnd, List.mem_filter, decide_eq_true_eq] at h
    exact ⟨h.1, fun t2 ht2 => by cases ht2; exact h.2⟩

lemma mem_listQueryRows {db : Store} {src : Option String} {sd ed : Option ℤ}
    {r : WeatherStationData} (h : r ∈ listQueryRows db src sd ed) :
    r ∈ db.rows ∧ (∀ s, src = some s → s ≠ "" → r.source = s) ∧
    (∀ t, sd = some t → t ≤ r.station_time) ∧
    (∀ t, ed = some t → r.station_time ≤ t) := by
  obtain ⟨h1, hE⟩ := mem_filterEnd h
  obtain ⟨h2, hS⟩ := mem_filterStart h1
  obtain ⟨h3, hSrc⟩ := mem_filterSource h2
  exact ⟨h3, hSrc, hS, hE⟩

lemma listQueryRows_empty_of_inverted {db : Store} {src : Option String}
    {t1 t2 : ℤ} (h : t2 < t1) :
    listQueryRows db src (some t1) (some t2) = [] := by
  unfold listQueryRows filterEnd
  rw [List.filter_eq_nil_iff]
  intro a ha
  obtain ⟨-, hS⟩ := mem_filterStart ha
  have h1 : t1 ≤ a.station_time := hS t1 rfl
  simp only [decide_eq_true_eq]
  omega

/-- C6: the list endpoint returns readings ordered by station_time
descending; every supplied filter is applied conjunctively before
pagination; the result never exceeds limit in length; a skip at or beyond
the filtered count yields the empty list rather than an error; and an
inverted time range (startTime > endTime) yields the empty list rather than
an error. -/
theorem get_all_weather_data_spec (db : Store) (skip limit : ℕ)
    (source : Option String) (start_date end_date : Option ℤ) :
    List.Sorted timeDesc
      (get_all_weather_data db skip limit source start_date end_date) ∧
    (get_all_weather_data db skip limit source start_date end_date).length ≤
      limit ∧
    (∀ r ∈ get_all_weather_data db skip limit source start_date end_date,
        r ∈ db.rows ∧ (∀ s, source = some s → s ≠ "" → r.source = s) ∧
        (∀ t, start_date = some t → t ≤ r.station_time) ∧
        (∀ t, end_date = some t → r.station_time ≤ t)) ∧
    ((listQueryRows db source start_date end_date).length ≤ skip →
        get_all_weather_data db skip limit source start_date end_date = []) ∧
    (∀ t1 t2, start_date = some t1 → end_date = some t2 → t2 < t1 →
        get_all_weather_data db skip limit source start_date end_date = []) := by
  unfold get_all_weather_data
  have hperm :=
    List.perm_insertionSort timeDesc (listQueryRows db source start_date end_date)
  have hsub :
      ((((listQueryRows db source start_date end_date).insertionSort
          timeDesc).drop skip).take limit).Sublist
        ((listQueryRows db source start_date end_date).insertionSort timeDesc) :=
    (List.take_sublist _ _).trans (List.drop_sublist _ _)
  refine ⟨?_, ?_, ?_, ?_, ?_⟩
  · exact List.Pairwise.sublist hsub (List.sorted_insertionSort timeDesc _)
  · rw [List.length_take]
    exact min_le_left _ _
  · intro r hr
    exact mem_listQueryRows (hperm.mem_iff.mp (hsub.subset hr))
  · intro hskip
    have hlen :
        ((listQueryRows db source start_date end_date).insertionSort
          timeDesc).length =
        (listQueryRows db source start_date end_date).length :=
      hperm.length_eq
    rw [List.drop_eq_nil_of_le (by omega), List.take_nil]
  · intro t1 t2 h1 h2 hlt
    rw [h1, h2, listQueryRows_empty_of_inverted hlt]
    simp

/-- C6 witness: on a two-row store, a skip of 5 exceeds the filtered count
and yields the empty list. -/
theorem get_all_weather_data_spec_witness :
    (listQueryRows mixedSourceStore none none none).length ≤ 5 ∧
    get_all_weather_data mixedSourceStore 5 100 none none none = [] :=
  ⟨by decide,
   (get_all_weather_data_spec mixedSourceStore 5 100 none none none).2.2.2.1
     (by decide)⟩

/-! Bounds of the three rain-score rules. -/

lemma humidityRuleScore_bounds (w : List WeatherStationData) :
    0 ≤ humidityRuleScore w ∧ humidityRuleScore w ≤ 30 := by
  unfold humidityRuleScore
  split_ifs <;> omega

lemma pressureRuleScore_bounds (w : List WeatherStationData) :
    0 ≤ pressureRuleScore w ∧ pressureRuleScore w ≤ 35 := by
  cases hf : (w.head?).bind (·.presure) <;>
    cases hl : (w.getLast?).bind (·.presure) <;>
      simp only [pressureRuleScore, pressureChangeAndScore, hf, hl] <;>
        (try split_ifs) <;> omega

lemma precipitationRuleScore_bounds (w : List WeatherStationData) :
    0 ≤ precipitationRuleScore w ∧ precipitationRuleScore w ≤ 25 := by
  unfold precipitationRuleScore
  split_ifs <;> omega

/-- C5: the rain-probability endpoint reports not-found exactly when the
window holds fewer than two readings; every successful score is the plain
sum of the three rule contributions over the ascending-ordered window (the
clamp at 100 never binds, since the three rules total at most 90); and the
worked two-reading example — humidities 95 and 95, pressures 1010 then 1008,
precipitation totalling 0.2 — scores exactly 90. -/
theorem get_rain_probability_spec (db : Store) (source_name : String)
    (now : ℤ) (hours : ℕ) :
    ((recentDataAsc db source_name now hours).length < 2 ↔
        ∃ detail, get_rain_probability db source_name now hours =
          .httpError 404 detail) ∧
    (∀ rep, get_rain_probability db source_name now hours = .ok rep →
        rep.rain_probability =
          humidityRuleScore (recentDataAsc db source_name now hours) +
          pressureRuleScore (recentDataAsc db source_name now hours) +
          precipitationRuleScore (recentDataAsc db source_name now hours)) ∧
    get_rain_probability rainExampleStore "estacion" 1000 6 =
      .ok rainExampleReport := by
  refine ⟨?_, ?_, rainExample_eval⟩
  · by_cases hlen : (recentDataAsc db source_name now hours).length < 2 <;>
      simp [get_rain_probability, hlen]
  · intro rep hrep
    by_cases hlen : (recentDataAsc db source_name now hours).length < 2
    · simp [get_rain_probability, hlen] at hrep
    · simp only [get_rain_probability, if_neg hlen] at hrep
      injection hrep with hrec
      have b1 := humidityRuleScore_bounds (recentDataAsc db source_name now hours)
      have b2 := pressureRuleScore_bounds (recentDataAsc db source_name now hours)
      have b3 :=
        precipitationRuleScore_bounds (recentDataAsc db source_name now hours)
      rw [← hrec]
      show min _ 100 = _
      omega

/-- C5 witness: the worked example's score equals the sum of its three rule
contributions. -/
theorem get_rain_probability_spec_witness :
    rainExampleReport.rain_probability =
      humidityRuleScore (recentDataAsc rainExampleStore "estacion" 1000 6) +
      pressureRuleScore (recentDataAsc rainExampleStore "estacion" 1000 6) +
      precipitationRuleScore (recentDataAsc rainExampleStore "estacion" 1000 6) :=
  (get_rain_probability_spec rainExampleStore "estacion" 1000 6).2.1
    rainExampleReport rainExample_eval

/-- C7: every successful rain-probability response carries a score in
[0, 100]: the additive total is clamped above at 100 and each rule
contribution is non-negative, so the score never drops below 0. -/
theorem get_rain_probability_in_range (db : Store) (source_name : String)
    (now : ℤ) (hours : ℕ) (rep : RainReport)
    (h : get_rain_probability db source_name now hours = .ok rep) :
    0 ≤ rep.rain_probability ∧ rep.rain_probability ≤ 100 := by
  by_cases hlen : (recentDataAsc db source_name now hours).length < 2
  · simp [get_rain_probability, hlen] at h
  · simp only [get_rain_probability, if_neg hlen] at h
    injection h with hrec
    have b1 := humidityRuleScore_bounds (recentDataAsc db source_name now hours)
    have b2 := pressureRuleScore_bounds (recentDataAsc db source_name now hours)
    have b3 :=
      precipitationRuleScore_bounds (recentDataAsc db source_name now hours)
    rw [← hrec]
    refine ⟨?_, ?_⟩ <;> show _ ≤ _ <;> first
      | exact le_min (by omega) (by omega)
      | exact min_le_right _ _

/-- C7 witness: the worked example's score lies in [0, 100]. -/
theorem get_rain_probability_in_range_witness :
    0 ≤ rainExampleReport.rain_probability ∧
    rainExampleReport.rain_probability ≤ 100 :=
  get_rain_probability_in_range rainExampleStore "estacion" 1000 6
    rainExampleReport rainExample_eval

/-! Lemmas about the grouped-max join of the latest-per-source view. -/

lemma foldl_max_eq_init_or_mem (l : List ℕ) :
    ∀ a : ℕ, l.foldl Nat.max a = a ∨ l.foldl Nat.max a ∈ l := by
  induction l with
  | nil => intro a; left; rfl
  | cons x xs ih =>
    intro a
    rw [List.foldl_cons]
    rcases ih (Nat.max a x) with h | h
    · rcases Nat.le_total x a with hxa | hax
      · left; rw [h]; exact Nat.max_eq_left hxa
      · right
        have hx : Nat.max a x = x := Nat.max_eq_right hax
        rw [h, hx]
        exact List.mem_cons_self _ _
    · right; exact List.mem_cons_of_mem _ h

lemma le_foldl_max_init (l : List ℕ) : ∀ a : ℕ, a ≤ l.foldl Nat.max a := by
  induction l with
  | nil => intro a; exact le_refl a
  | cons x xs ih =>
    intro a
    rw [List.foldl_cons]
    exact le_trans (Nat.le_max_left a x) (ih (Nat.max a x))

lemma le_foldl_max (l : List ℕ) :
    ∀ (a x : ℕ), x ∈ l → x ≤ l.foldl Nat.max a := by
  induction l with
  | nil => intro a x hx; cases hx
  | cons y ys ih =>
    intro a x hx
    rw [List.foldl_cons]
    rcases List.mem_cons.mp hx with rfl | hx2
    · exact le_trans (Nat.le_max_right a x) (le_foldl_max_init ys (Nat.max a x))
    · exact ih (Nat.max a y) x hx2

lemma mem_sourceGroupIds {rows : List WeatherStationData} {s : String}
    {n : ℕ} :
    n ∈ sourceGroupIds rows s ↔ ∃ d, d ∈ rows ∧ d.source = s ∧ d.id = n := by
  unfold sourceGroupIds
  rw [List.mem_map]
  constructor
  · rintro ⟨d, hdf, hid⟩
    rw [List.mem_filter, decide_eq_true_eq] at hdf
    exact ⟨d, hdf.1, hdf.2, hid⟩
  · rintro ⟨d, hd, hs, hid⟩
    exact ⟨d, List.mem_filter.mpr ⟨hd, by simp [hs]⟩, hid⟩

lemma maxIdForSource_attained {rows : List WeatherStationData} {s : String}
    (hs : ∃ r, r ∈ rows ∧ r.source = s) :
    ∃ d, d ∈ rows ∧ d.source = s ∧ d.id = maxIdForSource rows s := by
  obtain ⟨d0, hd0, hs0⟩ := hs
  have hmem0 : d0.id ∈ sourceGroupIds rows s :=
    mem_sourceGroupIds.mpr ⟨d0, hd0, hs0, rfl⟩
  rcases foldl_max_eq_init_or_mem (sourceGroupIds rows s) 0 with h0 | hm
  · have hle := le_foldl_max (sourceGroupIds rows s) 0 d0.id hmem0
    refine ⟨d0, hd0, hs0, ?_⟩
    unfold maxIdForSource
    omega
  · obtain ⟨d, hd, hds, hdid⟩ := mem_sourceGroupIds.mp hm
    exact ⟨d, hd, hds, hdid⟩

lemma maxIdForSource_ge {rows : List WeatherStationData} {s : String}
    {d : WeatherStationData} (hd : d ∈ rows) (hs : d.source = s) :
    d.id ≤ maxIdForSource rows s :=
  le_foldl_max _ 0 d.id (mem_sourceGroupIds.mpr ⟨d, hd, hs, rfl⟩)

lemma id_injective {rows : List WeatherStationData}
    (hid : (rows.map (·.id)).Nodup) {a b : WeatherStationData}
    (ha : a ∈ rows) (hb : b ∈ rows) (hab : a.id = b.id) : a = b :=
  List.inj_on_of_nodup_map hid ha hb hab

lemma mem_latest_iff {db : Store} (hid : (db.rows.map (·.id)).Nodup)
    {d : WeatherStationData} :
    d ∈ get_latest_from_all_sources db ↔
      d ∈ db.rows ∧ d.id = maxIdForSource db.rows d.source := by
  simp only [get_latest_from_all_sources]
  rw [List.mem_filter]
  constructor
  · rintro ⟨hdrows, hany⟩
    rw [List.any_eq_true] at hany
    obtain ⟨p, hp, hdp⟩ := hany
    rw [List.mem_map] at hp
    obtain ⟨s, hsdist, rfl⟩ := hp
    rw [beq_iff_eq] at hdp
    have hex : ∃ r, r ∈ db.rows ∧ r.source = s := by
      have hs2 : s ∈ db.rows.map (·.source) := List.mem_dedup.mp hsdist
      rw [List.mem_map] at hs2
      obtain ⟨r, hr, hrs⟩ := hs2
      exact ⟨r, hr, hrs⟩
    obtain ⟨r, hr, hrs, hrid⟩ := maxIdForSource_attained hex
    have hdr : d = r := id_injective hid hdrows hr (by rw [← hrid] at hdp; exact hdp)
    have hds : d.source = s := by rw [hdr, hrs]
    refine ⟨hdrows, ?_⟩
    rw [hds]
    exact hdp
  · rintro ⟨hdrows, hdid⟩
    refine ⟨hdrows, ?_⟩
    rw [List.any_eq_true]
    refine ⟨(d.source, maxIdForSource db.rows d.source), ?_, ?_⟩
    · rw [List.mem_map]
      exact ⟨d.source,
        List.mem_dedup.mpr (List.mem_map.mpr ⟨d, hdrows, rfl⟩), rfl⟩
    · rw [beq_iff_eq]
      exact hdid

/-- C4: under the store invariant that ids are unique, the latest-per-source
view returns exactly one reading per distinct source — its length equals the
number of distinct sources, its sources repeat no value, and every distinct
source is represented — and each returned reading carries the maximum id
among the readings sharing its source (which, as the witness store shows,
need not carry the maximum stationTime). -/
theorem get_latest_from_all_sources_spec (db : Store)
    (hid : (db.rows.map (·.id)).Nodup) :
    (get_latest_from_all_sources db).length =
      (distinctSources db.rows).length ∧
    ((get_latest_from_all_sources db).map (·.source)).Nodup ∧
    (∀ s ∈ distinctSources db.rows,
        ∃ d ∈ get_latest_from_all_sources db, d.source = s) ∧
    (∀ d ∈ get_latest_from_all_sources db,
        d.id = maxIdForSource db.rows d.source ∧
        ∀ r ∈ db.rows, r.source = d.source → r.id ≤ d.id) := by
  have hrowsN : db.rows.Nodup := List.Nodup.of_map _ hid
  have hresN : (get_latest_from_all_sources db).Nodup :=
    List.Nodup.filter _ hrowsN
  have hsrcN : ((get_latest_from_all_sources db).map (·.source)).Nodup := by
    rw [List.nodup_map_iff_inj_on hresN]
    intro x hx y hy hxy
    obtain ⟨hxr, hxid⟩ := (mem_latest_iff hid).mp hx
    obtain ⟨hyr, hyid⟩ := (mem_latest_iff hid).mp hy
    exact id_injective hid hxr hyr (by rw [hxid, hyid, hxy])
  have hexists : ∀ s ∈ distinctSources db.rows,
      ∃ d ∈ get_latest_from_all_sources db, d.source = s := by
    intro s hs
    have hex : ∃ r, r ∈ db.rows ∧ r.source = s := by
      have hs2 : s ∈ db.rows.map (·.source) := List.mem_dedup.mp hs
      rw [List.mem_map] at hs2
      obtain ⟨r, hr, hrs⟩ := hs2
      exact ⟨r, hr, hrs⟩
    obtain ⟨r, hr, hrs, hrid⟩ := maxIdForSource_attained hex
    refine ⟨r, (mem_latest_iff hid).mpr ⟨hr, ?_⟩, hrs⟩
    rw [hrs]
    exact hrid
  have hperm : ((get_latest_from_all_sources db).map (·.source)).Perm
      (distinctSources db.rows) := by
    unfold distinctSources
    rw [List.perm_ext_iff_of_nodup hsrcN (List.nodup_dedup _)]
    intro s
    constructor
    · intro hs
      rw [List.mem_map] at hs
      obtain ⟨d, hd, rfl⟩ := hs
      exact List.mem_dedup.mpr
        (List.mem_map.mpr ⟨d, ((mem_latest_iff hid).mp hd).1, rfl⟩)
    · intro hs
      obtain ⟨d, hd, hds⟩ := hexists s hs
      exact List.mem_map.mpr ⟨d, hd, hds⟩
  refine ⟨?_, hsrcN, hexists, ?_⟩
  · calc (get_latest_from_all_sources db).length
        = ((get_latest_from_all_sources db).map (·.source)).length :=
          (List.length_map _ _).symm
      _ = (distinctSources db.rows).length := hperm.length_eq
  · intro d hd
    obtain ⟨hdr, hdid⟩ := (mem_latest_iff hid).mp hd
    refine ⟨hdid, ?_⟩
    intro r hr hrs
    rw [hdid]
    exact maxIdForSource_ge hr hrs

/-- Reading of source a with the newest station_time but the oldest id. -/
def latestRowA1 : WeatherStationData :=
  { id := 1, station_time := 100, source := "a" }

/-- Reading of source b. -/
def latestRowB1 : WeatherStationData :=
  { id := 2, station_time := 90, source := "b" }

/-- Reading of source a with the highest id but an older station_time. -/
def latestRowA2 : WeatherStationData :=
  { id := 3, station_time := 50, source := "a" }

/-- Store with two sources and an out-of-order arrival for source a. -/
def latestWitnessStore : Store :=
  { rows := [latestRowA1, latestRowB1, latestRowA2], nextId := 4 }

/-- C4 witness: on the out-of-order two-source store the view has one row
per distinct source. -/
theorem get_latest_from_all_sources_spec_witness :
    (latestWitnessStore.rows.map (·.id)).Nodup ∧
    (get_latest_from_all_sources latestWitnessStore).length =
      (distinctSources latestWitnessStore.rows).length :=
  ⟨by decide,
   (get_latest_from_all_sources_spec latestWitnessStore (by decide)).1⟩

/-! Lemmas about mark-processed. -/

lemma queryFirstById_some_of_mem {rows : List WeatherStationData}
    {r : WeatherStationData} {i : ℕ} (hr : r ∈ rows) (hid : r.id = i) :
    ∃ x, queryFirstById rows i = some x := by
  induction rows with
  | nil => cases hr
  | cons d ds ih =>
    by_cases h : d.id = i
    · exact ⟨d, by simp [queryFirstById, h]⟩
    · rcases List.mem_cons.mp hr with rfl | hr2
      · exact absurd hid h
      · obtain ⟨x, hx⟩ := ih hr2
        exact ⟨x, by simp [queryFirstById, h, hx]⟩

lemma queryFirstById_setProcessedFirst {rows : List WeatherStationData}
    {i : ℕ} {r : WeatherStationData}
    (h : queryFirstById rows i = some r) :
    queryFirstById (setProcessedFirst rows i) i =
      some { r with processed := 1 } := by
  induction rows with
  | nil => simp [queryFirstById] at h
  | cons d ds ih =>
    by_cases hdi : d.id = i
    · simp only [queryFirstById, if_pos hdi, Option.some.injEq] at h
      subst h
      simp [setProcessedFirst, hdi, queryFirstById]
    · simp only [queryFirstById, if_neg hdi] at h
      simp [setProcessedFirst, hdi, queryFirstById, ih h]

lemma setProcessedFirst_idem (rows : List WeatherStationData) (i : ℕ) :
    setProcessedFirst (setProcessedFirst rows i) i =
      setProcessedFirst rows i := by
  induction rows with
  | nil => rfl
  | cons d ds ih =>
    by_cases hdi : d.id = i
    · simp [setProcessedFirst, hdi]
    · simp [setProcessedFirst, hdi, ih]

/-- C9: for an id present in the store, mark-processed succeeds, a second
call on the already-processed record succeeds as well without error, the
store after the second call equals the store after the first — so two
consecutive calls produce the same processed value as one — and the record
looked up afterwards carries processed = 1. -/
theorem mark_as_processed_idempotent (db : Store) (i : ℕ)
    (h : ∃ r ∈ db.rows, r.id = i) :
    (∃ resp, (mark_as_processed db i).2 = .ok resp ∧ resp.success = true) ∧
    (mark_as_processed (mark_as_processed db i).1 i).1 =
      (mark_as_processed db i).1 ∧
    (∃ resp, (mark_as_processed (mark_as_processed db i).1 i).2 = .ok resp ∧
        resp.success = true) ∧
    (∀ r, queryFirstById (mark_as_processed db i).1.rows i = some r →
        r.processed = 1) := by
  obtain ⟨r0, hr0, hid0⟩ := h
  obtain ⟨x, hx⟩ := queryFirstById_some_of_mem hr0 hid0
  have hx2 := queryFirstById_setProcessedFirst hx
  refine ⟨?_, ?_, ?_, ?_⟩
  · exact ⟨{ success := true, message := "Dato marcado como procesado",
             id := some i },
      by simp [mark_as_processed, hx], rfl⟩
  · simp [mark_as_processed, hx, hx2, setProcessedFirst_idem]
  · exact ⟨{ success := true, message := "Dato marcado como procesado",
             id := some i },
      by simp [mark_as_processed, hx, hx2], rfl⟩
  · intro r hr
    simp only [mark_as_processed, hx] at hr
    rw [hx2] at hr
    cases hr
    rfl

/-- Store holding one unprocessed reading with id 1. -/
def markWitnessStore : Store :=
  { rows := [{ id := 1, station_time := 0, source := "estacion" }],
    nextId := 2 }

/-- C9 witness: marking id 1 twice in the one-row store leaves the same
store as marking it once. -/
theorem mark_as_processed_idempotent_witness :
    (∃ r ∈ markWitnessStore.rows, r.id = 1) ∧
    (mark_as_processed (mark_as_processed markWitnessStore 1).1 1).1 =
      (mark_as_processed markWitnessStore 1).1 :=
  ⟨by decide, (mark_as_processed_idempotent markWitnessStore 1 (by decide)).2.1⟩

end WeatherApp
